import Mathlib

/-!
Verification of the `AgentServer` class in `packages/cli/src/server/index.ts`:
the agent registry (a JS `Map` from agent id to runtime handle), route
mounting (`registerAgent`), plugin static-asset resolution (the
`commonDirs` probe loop), `start` port validation, and the shutdown paths
(`gracefulShutdown` installed as the SIGTERM/SIGINT handler, and the
explicit `stop` method).
-/

namespace Eliza

/-- Agent identifiers (`UUID` in the source) are opaque strings; the empty
string models a missing/falsy `agentId`. -/
abbrev UUID := String

/-- A route descriptor declared by an agent or plugin.  `rtype` embeds the
source field `route.type`, which is a plain string (the mounting switch in
`registerAgent` has a `default` case for unrecognized values); `path` is the
URL pattern and `handlerId` stands for the opaque handler reference. -/
structure Route where
  rtype : String
  path : String
  handlerId : Nat
deriving DecidableEq

/-- A plugin reference: `name` plus its declared routes (source field
`plugin.routes`, used by the asset resolver in `initializeServer`). -/
structure Plugin where
  name : String
  routes : List Route
deriving DecidableEq

/-- An agent runtime handle.  `hasCharacter` embeds the truthiness of
`runtime.character` checked by `registerAgent`; the TEE-plugin capability
push in `registerAgent` mutates only the runtime handle itself (via
`registerProvider` / `registerAction`), never the server state, so it is
not part of this embedding's server state. -/
structure Runtime where
  agentId : UUID
  hasCharacter : Bool
  routes : List Route
  plugins : List Plugin
deriving DecidableEq

/-- HTTP methods that the mounting switch can bind (`app.get` / `app.post` /
`app.put` / `app.delete`). -/
inductive Method where
  | get
  | post
  | put
  | delete
deriving DecidableEq

/-- A mounted route binding: the express layer installed by `app.<method>`.
The wrapper `(req, res) => route.handler(req, res, runtime)` closes over the
owning runtime, embedded here by recording the owning `agentId` next to the
handler reference. -/
structure Binding where
  method : Method
  path : String
  handlerId : Nat
  agentId : UUID
deriving DecidableEq

/-- The `switch (route.type)` of `registerAgent` (lines 376-407): `STATIC`
and `GET` are separate cases whose bodies both call `app.get`; `POST`,
`PUT`, `DELETE` call the matching express method; every other string hits
the `default` case (no method). -/
def routeMethod : String → Option Method
  | "STATIC" => some Method.get
  | "GET" => some Method.get
  | "POST" => some Method.post
  | "PUT" => some Method.put
  | "DELETE" => some Method.delete
  | _ => none

/-- The binding produced for one route descriptor of `rt`, or `none` for an
unrecognized `route.type`. -/
def bindRoute (rt : Runtime) (r : Route) : Option Binding :=
  (routeMethod r.rtype).map fun m =>
    { method := m, path := r.path, handlerId := r.handlerId, agentId := rt.agentId }

/-- Observable log events emitted by the embedded operations (only the ones
the verified properties talk about). -/
inductive LogEvent where
  | registerFailed
  | unknownRouteType (t p : String)
  | routeRegistered (t p : String)
  | routeRegisterFailed (t p : String)
  | agentRegistered (id : UUID)
  | warnEmptyUnregister
  | agentRemoved (id : UUID)
deriving DecidableEq

/-- Log event produced by the switch for one route when express itself does
not throw: the `default` case logs `Unknown route type`, every recognized
case logs `Registered <type> route`. -/
def routeLog (r : Route) : LogEvent :=
  match routeMethod r.rtype with
  | none => LogEvent.unknownRouteType r.rtype r.path
  | some _ => LogEvent.routeRegistered r.rtype r.path

/-- Server-side mutable state of `AgentServer`: the `agents` map (a JS `Map`
is an insertion-ordered association list with unique keys), the express
route table built by `app.get`/`app.post`/... calls, and the static asset
mounts built by `app.use(mount, express.static(dir))`. -/
structure ServerState where
  agents : List (UUID × Runtime)
  bindings : List Binding
  mounts : List (String × String)
deriving DecidableEq

/-- A server state with nothing registered. -/
def emptyState : ServerState := { agents := [], bindings := [], mounts := [] }

/-- JS `Map.prototype.set` semantics: replace the value in place if the key
is present (keeping its position), else append a new entry. -/
def mapSet (m : List (UUID × Runtime)) (k : UUID) (v : Runtime) : List (UUID × Runtime) :=
  if m.any (fun p => p.1 == k) then
    m.map (fun p => if p.1 == k then (k, v) else p)
  else
    m ++ [(k, v)]

/-- JS `Map.prototype.delete` semantics: drop the entry with the given key,
keeping every other entry in order. -/
def mapDelete (m : List (UUID × Runtime)) (k : UUID) : List (UUID × Runtime) :=
  m.filter (fun p => !(p.1 == k))

/-- The identifiers currently in the registry (iterating `this.agents`). -/
def listAgents (s : ServerState) : List UUID :=
  s.agents.map Prod.fst

/-- The route-mounting loop of `registerAgent` (lines 373-416), run over the
remaining routes with the express route table accumulated in `acc`.  The
parameter `mf` tells which `app.<method>` calls throw (express can throw,
for example, on a malformed path pattern); on a throw the inner `catch`
logs `Failed to register route` and rethrows, aborting the loop with the
routes mounted so far still in the table.  The `default` case logs
`Unknown route type` and `continue`s. -/
def mountLoop (mf : Binding → Bool) (rt : Runtime) :
    List Route → List Binding → List Binding × List LogEvent × Bool
  | [], acc => (acc, [], true)
  | r :: rest, acc =>
    match routeMethod r.rtype with
    | none =>
      let res := mountLoop mf rt rest acc
      (res.1, LogEvent.unknownRouteType r.rtype r.path :: res.2.1, res.2.2)
    | some m =>
      let b : Binding :=
        { method := m, path := r.path, handlerId := r.handlerId, agentId := rt.agentId }
      if mf b then
        (acc, [LogEvent.routeRegisterFailed r.rtype r.path], false)
      else
        let res := mountLoop mf rt rest (acc ++ [b])
        (res.1, LogEvent.routeRegistered r.rtype r.path :: res.2.1, res.2.2)

/-- Result of one `registerAgent` call: the state after the call, the log
events, and whether the call returned normally (`ok = false` embeds a
throw). -/
structure RegResult where
  state : ServerState
  logs : List LogEvent
  ok : Bool
deriving DecidableEq

/-- The `registerAgent` method (lines 332-425).  Validation: a missing
runtime, a falsy `agentId`, or a falsy `character` each throw before any
mutation.  On a valid runtime the source first executes
`this.agents.set(runtime.agentId, runtime)` (line 349) and only then runs
the route-mounting loop, so the registry insertion survives a mounting
throw (the outer `catch` logs and rethrows without undoing anything). -/
def registerAgent (mf : Binding → Bool) (s : ServerState) (runtimeOpt : Option Runtime) :
    RegResult :=
  match runtimeOpt with
  | none => { state := s, logs := [LogEvent.registerFailed], ok := false }
  | some rt =>
    if rt.agentId = "" then
      { state := s, logs := [LogEvent.registerFailed], ok := false }
    else if rt.hasCharacter = false then
      { state := s, logs := [LogEvent.registerFailed], ok := false }
    else
      let res := mountLoop mf rt rt.routes s.bindings
      { state := { s with agents := mapSet s.agents rt.agentId rt, bindings := res.1 },
        logs := res.2.1 ++
          (if res.2.2 then [LogEvent.agentRegistered rt.agentId] else [LogEvent.registerFailed]),
        ok := res.2.2 }

/-- The `unregisterAgent` method (lines 433-447): a falsy `agentId` only
logs a warning and returns; otherwise `this.agents.delete(agentId)` runs
(it cannot throw) and the removal is logged.  Routes and mounts are never
touched. -/
def unregisterAgent (s : ServerState) (agentId : UUID) : ServerState × List LogEvent :=
  if agentId = "" then
    (s, [LogEvent.warnEmptyUnregister])
  else
    ({ s with agents := mapDelete s.agents agentId }, [LogEvent.agentRemoved agentId])

/-- A JavaScript value passed as the `port` argument of `start`.  `nan`
models `NaN` (which has `typeof === "number"` but is falsy); `undefined`
models a missing argument. -/
inductive JSValue where
  | num (n : Int)
  | nan
  | str (s : String)
  | undefined
deriving DecidableEq

/-- JS truthiness for the values above: `0`, `NaN`, the empty string, and
`undefined` are falsy. -/
def isFalsy : JSValue → Bool
  | JSValue.num n => n == 0
  | JSValue.nan => true
  | JSValue.str s => s == ""
  | JSValue.undefined => true

/-- Whether `typeof v === "number"` holds (`typeof NaN` is `"number"`). -/
def typeofNumber : JSValue → Bool
  | JSValue.num _ => true
  | JSValue.nan => true
  | JSValue.str _ => false
  | JSValue.undefined => false

/-- Outcome of `start(port)`: either the `Invalid port number` throw, or the
`this.app.listen(port, ...)` call with the given argument. -/
inductive StartResult where
  | threwInvalidPort
  | listenOn (port : JSValue)
deriving DecidableEq

/-- The `start` method's port validation (lines 463-473): the source guard
is `if (!port || typeof port !== "number") throw ...`; any value passing
the guard reaches `this.app.listen(port, ...)`. -/
def start (port : JSValue) : StartResult :=
  if isFalsy port || !(typeofNumber port) then
    StartResult.threwInvalidPort
  else
    StartResult.listenOn port

/-- Observable events of the shutdown paths. `serverClose b` is a
`this.server.close(cb)` call whose callback calls `process.exit(0)` exactly
when `b = true`; `forceExitTimer` is the `setTimeout(() => process.exit(1),
5000)` arming. -/
inductive ShutdownEvent where
  | stopAgent (id : UUID)
  | stopAgentFailed (id : UUID)
  | serverClose (exitOnClose : Bool)
  | forceExitTimer
deriving DecidableEq

/-- One run of the `gracefulShutdown` closure (lines 484-509): iterate
`this.agents` and call `agent.stop()` on each — the call is not awaited,
and a throwing stop is caught and logged without aborting the loop
(`stopAgentFailed`) — then call `this.server.close` with an `exit(0)`
callback, then arm the 5-second forced `exit(1)` timer. -/
def gracefulShutdownTrace (stopFails : UUID → Bool) (agents : List (UUID × Runtime)) :
    List ShutdownEvent :=
  (agents.map fun p =>
    if stopFails p.1 then ShutdownEvent.stopAgentFailed p.1 else ShutdownEvent.stopAgent p.1)
  ++ [ShutdownEvent.serverClose true, ShutdownEvent.forceExitTimer]

/-- The source installs `gracefulShutdown` unchanged as both the SIGTERM and
the SIGINT handler (lines 511-512) with no entered-once flag, so `n`
delivered shutdown triggers invoke the closure `n` times in sequence. -/
def runTriggers (stopFails : UUID → Bool) (agents : List (UUID × Runtime)) (n : Nat) :
    List ShutdownEvent :=
  (List.replicate n (gracefulShutdownTrace stopFails agents)).flatten

/-- The explicit `stop` method (lines 525-531): when `this.server` exists it
calls `this.server.close` with a callback that only logs `Server stopped`
(no `process.exit`); it touches neither the agents nor any timer. -/
def stopTrace (hasServer : Bool) : List ShutdownEvent :=
  if hasServer then [ShutdownEvent.serverClose false] else []

/-- The fixed shutdown grace period of `setTimeout(..., 5000)`. -/
def graceTimeoutMs : Nat := 5000

/-- A pending completion in the shutdown race: the time (ms after the drain
loop) at which it fires and the `process.exit` status it carries. -/
structure Completion where
  time : Nat
  status : Nat
deriving DecidableEq

/-- Whichever completion fires strictly first wins the race; `process.exit`
terminates the process, so the later completion never runs. -/
def raceFirst (a b : Completion) : Completion :=
  if a.time < b.time then a else b

/-- Exit completion of the shutdown race (lines 498-508): the close callback
(`process.exit(0)`) fires when the listener finishes closing at `closeTime`
(`none` models a listener that never closes), racing the fixed 5-second
timer (`process.exit(1)`). -/
def shutdownExit (closeTime : Option Nat) : Completion :=
  match closeTime with
  | some t => raceFirst { time := t, status := 0 } { time := graceTimeoutMs, status := 1 }
  | none => { time := graceTimeoutMs, status := 1 }

/-- A whole `gracefulShutdown` invocation: the synchronous drain trace plus
the exit race.  `agent.stop()` is invoked without `await` (line 491), so the
stop operations' completion times do not participate in the race. -/
def shutdownRun (stopFails : UUID → Bool) (agents : List (UUID × Runtime))
    (closeTime : Option Nat) : List ShutdownEvent × Completion :=
  (gracefulShutdownTrace stopFails agents, shutdownExit closeTime)

/-- Character-list search used to embed JS `String.prototype.includes` for a
nonempty pattern: is `sub` a contiguous run of `l`? -/
def charsHaveSub (sub : List Char) : List Char → Bool
  | [] => sub.isEmpty
  | c :: rest => sub.isPrefixOf (c :: rest) || charsHaveSub sub rest

/-- JS `s.includes(sub)` (used at the nonempty pattern `"api/"`). -/
def jsIncludes (s sub : String) : Bool :=
  charsHaveSub sub.data s.data

/-- JS `s.endsWith(suf)`. -/
def jsEndsWith (s suf : String) : Bool :=
  suf.data.isSuffixOf s.data

/-- JS `s.startsWith(pre)`. -/
def jsStartsWith (s p : String) : Bool :=
  p.data.isPrefixOf s.data

/-- JS `s.slice(0, -2)`: drop the last two characters. -/
def sliceToNeg2 (s : String) : String :=
  String.mk s.data.dropLast.dropLast

/-- JS `s.slice(1)`: drop the first character. -/
def sliceFrom1 (s : String) : String :=
  String.mk (s.data.drop 1)

/-- The fixed candidate list `commonDirs` of `initializeServer` (lines
256-269), each entry `(path, mount)` exactly as in the source array. -/
def commonDirs : List (String × String) :=
  [("dist/assets", "/assets"),
   ("frontend/dist", "/"),
   ("dist/client", "/"),
   ("dist", "/"),
   ("public", "/"),
   ("static", "/"),
   ("assets", "/assets")]

/-- The `staticRoutes` filter (lines 274-278): a plugin route qualifies when
`route.type === "GET"` and its path either ends in `"/*"` or does not
contain `"api/"`. -/
def isStaticRoute (r : Route) : Bool :=
  r.rtype == "GET" && (jsEndsWith r.path "/*" || !(jsIncludes r.path "api/"))

/-- Base-path derivation for a qualifying route (lines 281-288): trim a
trailing `"/*"`, then a leading `"/"`. -/
def deriveBase (p : String) : String :=
  let b := if jsEndsWith p "/*" then sliceToNeg2 p else p
  if jsStartsWith b "/" then sliceFrom1 b else b

/-- Candidates pushed onto `commonDirs` by the route loop (lines 280-297):
one `(base ++ "/dist", "/" ++ base)` per qualifying route, guarded by
`if (basePath)` — a route whose derived base is the empty string pushes
nothing. -/
def routeCandidates (routes : List Route) : List (String × String) :=
  (routes.filter isStaticRoute).filterMap fun r =>
    let b := deriveBase r.path
    if b == "" then none else some (b ++ "/dist", "/" ++ b)

/-- The final contents of the `commonDirs` array for a plugin with the given
routes: the fixed list followed by the per-route pushes, in order. -/
def allCandidates (routes : List Route) : List (String × String) :=
  commonDirs ++ routeCandidates routes

/-- The mount-registration loop (lines 301-309): for each candidate in
order, if `fs.existsSync(path.join(pluginDir, dir.path))` holds —
represented by the predicate `ex` on the candidate's relative path —
register the static mount; an earlier match never skips a later
candidate. -/
def resolveMounts (ex : String → Bool) (routes : List Route) : List (String × String) :=
  (allCandidates routes).filter fun d => ex d.1

/-- Modelled from the spec's words for comparison (claim C6): one appended
candidate per qualifying GET route, with no guard on the derived base path
being nonempty. -/
def specRouteCandidates (routes : List Route) : List (String × String) :=
  (routes.filter isStaticRoute).map fun r =>
    let b := deriveBase r.path
    (b ++ "/dist", "/" ++ b)

/-- A key occurring in a duplicate-free list occurs exactly once. -/
theorem count_one_of_nodup_mem {α : Type} [DecidableEq α] {l : List α} {k : α}
    (h : l.Nodup) (hm : k ∈ l) : l.count k = 1 := by
  induction l with
  | nil => cases hm
  | cons a rest ih =>
    rcases List.mem_cons.mp hm with rfl | hmem
    · rw [List.count_cons_self, List.count_eq_zero.mpr (List.nodup_cons.mp h).1]
    · have hne : k ≠ a := by
        rintro rfl
        exact (List.nodup_cons.mp h).1 hmem
      rw [List.count_cons_of_ne hne]
      exact ih (List.nodup_cons.mp h).2 hmem

/-- Replacing the value stored at a key leaves the key sequence unchanged. -/
theorem mapSet_replace_keys (m : List (UUID × Runtime)) (k : UUID) (v : Runtime) :
    (m.map fun p => if p.1 == k then (k, v) else p).map Prod.fst = m.map Prod.fst := by
  induction m with
  | nil => rfl
  | cons p rest ih =>
    simp only [List.map_cons, ih, List.cons.injEq, and_true]
    by_cases hp : p.1 = k
    · simp [hp]
    · simp [hp]

/-- Key sequence after a `Map.set`: unchanged when the key was present,
extended by the key otherwise. -/
theorem mapSet_keys (m : List (UUID × Runtime)) (k : UUID) (v : Runtime) :
    (mapSet m k v).map Prod.fst =
      if m.any (fun p => p.1 == k) then m.map Prod.fst else m.map Prod.fst ++ [k] := by
  unfold mapSet
  by_cases h : m.any (fun p => p.1 == k)
  · rw [if_pos h, if_pos h]
    exact mapSet_replace_keys m k v
  · rw [if_neg h, if_neg h, List.map_append]
    rfl

/-- After `Map.set`, the key is in the registry's key sequence. -/
theorem mapSet_mem_keys (m : List (UUID × Runtime)) (k : UUID) (v : Runtime) :
    k ∈ (mapSet m k v).map Prod.fst := by
  rw [mapSet_keys]
  by_cases h : m.any (fun p => p.1 == k)
  · rw [if_pos h]
    obtain ⟨p, hp, hpk⟩ := List.any_eq_true.mp h
    exact List.mem_map.mpr ⟨p, hp, by simpa using hpk⟩
  · rw [if_neg h]
    simp

/-- After `Map.set` on a registry with duplicate-free keys, the key occurs
exactly once. -/
theorem mapSet_count_self (m : List (UUID × Runtime)) (k : UUID) (v : Runtime)
    (h : (m.map Prod.fst).Nodup) :
    ((mapSet m k v).map Prod.fst).count k = 1 := by
  rw [mapSet_keys]
  by_cases ha : m.any (fun p => p.1 == k)
  · rw [if_pos ha]
    apply count_one_of_nodup_mem h
    obtain ⟨p, hp, hpk⟩ := List.any_eq_true.mp ha
    exact List.mem_map.mpr ⟨p, hp, by simpa using hpk⟩
  · rw [if_neg ha]
    have hk : k ∉ m.map Prod.fst := by
      intro hmem
      obtain ⟨p, hp, hpk⟩ := List.mem_map.mp hmem
      exact ha (List.any_eq_true.mpr ⟨p, hp, by simpa using hpk⟩)
    rw [List.count_append, List.count_eq_zero.mpr hk]
    simp

/-- `Map.set` preserves duplicate-freeness of the key sequence. -/
theorem mapSet_nodup (m : List (UUID × Runtime)) (k : UUID) (v : Runtime)
    (h : (m.map Prod.fst).Nodup) :
    ((mapSet m k v).map Prod.fst).Nodup := by
  rw [mapSet_keys]
  by_cases ha : m.any (fun p => p.1 == k)
  · rwa [if_pos ha]
  · rw [if_neg ha]
    have hk : k ∉ m.map Prod.fst := by
      intro hmem
      obtain ⟨p, hp, hpk⟩ := List.mem_map.mp hmem
      exact ha (List.any_eq_true.mpr ⟨p, hp, by simpa using hpk⟩)
    simp [List.nodup_append, h, hk]

/-- When the key occurs nowhere in `rest`, replacement touches nothing and
the key matches no entry. -/
theorem filter_map_replace_nil (rest : List (UUID × Runtime)) (k : UUID) (v : Runtime)
    (hk : k ∉ rest.map Prod.fst) :
    (rest.map fun p => if p.1 == k then (k, v) else p).filter (fun p => p.1 == k) = [] := by
  induction rest with
  | nil => rfl
  | cons q qs ih =>
    simp only [List.map_cons, List.mem_cons, not_or] at hk
    have hq : q.1 ≠ k := fun e => hk.1 e.symm
    simp only [List.map_cons]
    rw [List.filter_cons]
    have hcond : ((if q.1 == k then (k, v) else q).1 == k) = false := by simp [hq]
    rw [hcond]
    simp only [Bool.false_eq_true, if_false]
    exact ih hk.2

/-- Replacement at a key that is present (uniquely) stores exactly the new
entry at it. -/
theorem replace_filter_eq (m : List (UUID × Runtime)) (k : UUID) (v : Runtime)
    (h : (m.map Prod.fst).Nodup) (ha : m.any (fun p => p.1 == k) = true) :
    (m.map fun p => if p.1 == k then (k, v) else p).filter (fun p => p.1 == k) = [(k, v)] := by
  induction m with
  | nil => simp at ha
  | cons p rest ih =>
    simp only [List.map_cons, List.nodup_cons] at h
    by_cases hp : p.1 = k
    · have hk : k ∉ rest.map Prod.fst := hp ▸ h.1
      simp only [List.map_cons]
      have hfp : (if p.1 == k then (k, v) else p) = (k, v) := by simp [hp]
      rw [hfp, List.filter_cons]
      have hcond : (((k, v) : UUID × Runtime).1 == k) = true := by simp
      rw [hcond]
      simp only [if_true]
      rw [filter_map_replace_nil rest k v hk]
    · have ha2 : rest.any (fun q => q.1 == k) = true := by
        rcases List.any_eq_true.mp ha with ⟨q, hq, hqk⟩
        rcases List.mem_cons.mp hq with rfl | hq2
        · exact absurd (by simpa using hqk) hp
        · exact List.any_eq_true.mpr ⟨q, hq2, hqk⟩
      simp only [List.map_cons]
      rw [List.filter_cons]
      have hcond : ((if p.1 == k then (k, v) else p).1 == k) = false := by
        simp [hp]
      rw [hcond]
      simp only [Bool.false_eq_true, if_false]
      exact ih h.2 ha2

/-- `Map.set` on a registry with duplicate-free keys stores exactly the new
entry at the key. -/
theorem mapSet_filter_self (m : List (UUID × Runtime)) (k : UUID) (v : Runtime)
    (h : (m.map Prod.fst).Nodup) :
    (mapSet m k v).filter (fun p => p.1 == k) = [(k, v)] := by
  unfold mapSet
  by_cases ha : m.any (fun p => p.1 == k)
  · rw [if_pos ha]
    exact replace_filter_eq m k v h ha
  · rw [if_neg ha, List.filter_append]
    have h0 : m.filter (fun p => p.1 == k) = [] := by
      rw [List.filter_eq_nil_iff]
      intro p hp hpk
      exact ha (List.any_eq_true.mpr ⟨p, hp, hpk⟩)
    rw [h0]
    simp

/-- When no express call throws, the mounting loop appends exactly the
bindings of the recognized descriptors, in order, logs one event per
descriptor, and returns normally. -/
theorem mountLoop_noFail (rt : Runtime) (routes : List Route) (acc : List Binding) :
    mountLoop (fun _ => false) rt routes acc =
      (acc ++ routes.filterMap (bindRoute rt), routes.map routeLog, true) := by
  induction routes generalizing acc with
  | nil => simp [mountLoop]
  | cons r rest ih =>
    cases hm : routeMethod r.rtype with
    | none => simp [mountLoop, hm, ih, routeLog, bindRoute]
    | some m => simp [mountLoop, hm, ih, routeLog, bindRoute]

/-- Concrete one-agent runtime handle used by concrete instances below. -/
def rtA : Runtime := { agentId := "a", hasCharacter := true, routes := [], plugins := [] }

/-- Counterexample to claim C1: with one registered agent, two delivered
shutdown triggers do not collapse into one drain sequence — the close/exit
scheduling runs twice and the agent's stop operation is invoked twice,
because the `gracefulShutdown` handler has no entered-once guard. -/
theorem shutdown_two_triggers_two_drains :
    ¬ ((runTriggers (fun _ => false) [("a", rtA)] 2).count (ShutdownEvent.serverClose true) ≤ 1 ∧
       (runTriggers (fun _ => false) [("a", rtA)] 2).count (ShutdownEvent.stopAgent "a") ≤ 1) := by
  decide

/-- Claim C1, amended: each shutdown trigger runs the full drain sequence —
the handler has no once-only flag — so two triggers produce the drain trace
twice, scheduling the close-with-exit step once per trigger (only the first
`process.exit` to fire actually terminates the process). -/
theorem each_trigger_runs_full_drain (stopFails : UUID → Bool) (agents : List (UUID × Runtime)) :
    runTriggers stopFails agents 2 =
      gracefulShutdownTrace stopFails agents ++ gracefulShutdownTrace stopFails agents ∧
    (gracefulShutdownTrace stopFails agents).count (ShutdownEvent.serverClose true) = 1 ∧
    (runTriggers stopFails agents 2).count (ShutdownEvent.serverClose true) = 2 := by
  have hone :
      (gracefulShutdownTrace stopFails agents).count (ShutdownEvent.serverClose true) = 1 := by
    unfold gracefulShutdownTrace
    rw [List.count_append]
    have h0 : ((agents.map fun p =>
        if stopFails p.1 then ShutdownEvent.stopAgentFailed p.1
        else ShutdownEvent.stopAgent p.1).count (ShutdownEvent.serverClose true)) = 0 := by
      rw [List.count_eq_zero]
      intro hmem
      obtain ⟨p, hp, he⟩ := List.mem_map.mp hmem
      by_cases hs : stopFails p.1 <;> simp [hs] at he
    rw [h0]
    rfl
  have hjoin : runTriggers stopFails agents 2 =
      gracefulShutdownTrace stopFails agents ++ gracefulShutdownTrace stopFails agents := by
    unfold runTriggers
    simp
  refine ⟨hjoin, hone, ?_⟩
  rw [hjoin, List.count_append, hone]

/-- Counterexample to claim C2: `start(-1)` does not fail with
`InvalidPort` — `-1` is truthy and of number type, so the guard passes and
the listener bind is attempted. -/
theorem start_negative_port_attempts_bind :
    start (JSValue.num (-1)) = StartResult.listenOn (JSValue.num (-1)) ∧
    StartResult.listenOn (JSValue.num (-1)) ≠ StartResult.threwInvalidPort :=
  ⟨rfl, by decide⟩

/-- Claim C2, amended: `start` fails with `InvalidPort` and performs no
listener bind exactly when the argument is falsy (`0`, `NaN`,
missing/`undefined`) or not of number type; every nonzero number — negative
and non-integer values included — passes validation and a listener bind is
attempted. -/
theorem start_rejects_falsy_or_nonnumber :
    start (JSValue.num 0) = StartResult.threwInvalidPort ∧
    start JSValue.undefined = StartResult.threwInvalidPort ∧
    start JSValue.nan = StartResult.threwInvalidPort ∧
    (∀ s : String, start (JSValue.str s) = StartResult.threwInvalidPort) ∧
    (∀ n : Int, n ≠ 0 → start (JSValue.num n) = StartResult.listenOn (JSValue.num n)) := by
  refine ⟨rfl, rfl, rfl, ?_, ?_⟩
  · intro s
    simp [start, isFalsy, typeofNumber]
  · intro n hn
    simp [start, isFalsy, typeofNumber, hn]

/-- Witness for the amended claim C2 at the concrete port `-2`. -/
theorem start_rejects_falsy_or_nonnumber_witness :
    (-2 : Int) ≠ 0 ∧ start (JSValue.num (-2)) = StartResult.listenOn (JSValue.num (-2)) :=
  ⟨by decide, start_rejects_falsy_or_nonnumber.2.2.2.2 (-2) (by decide)⟩

/-- Counterexample to claim C3: with agent `"a"` registered, the explicit
`stop` call neither invokes the agent's stop operation nor runs the
signal-triggered graceful-shutdown sequence. -/
theorem stop_call_does_not_stop_agents :
    ShutdownEvent.stopAgent "a" ∉ stopTrace true ∧
    stopTrace true ≠ gracefulShutdownTrace (fun _ => false) [("a", rtA)] := by
  decide

/-- Claim C3, amended: the explicit `stop` call only requests a close of the
listening socket when a server exists (with a log-only callback); it stops
no registered agent, arms no grace timer, and never terminates the process
— only termination signals trigger the full shutdown sequence. -/
theorem stop_only_requests_close (hasServer : Bool) :
    stopTrace true = [ShutdownEvent.serverClose false] ∧
    stopTrace false = [] ∧
    (∀ id, ShutdownEvent.stopAgent id ∉ stopTrace hasServer) ∧
    (∀ id, ShutdownEvent.stopAgentFailed id ∉ stopTrace hasServer) ∧
    ShutdownEvent.forceExitTimer ∉ stopTrace hasServer ∧
    ShutdownEvent.serverClose true ∉ stopTrace hasServer := by
  cases hasServer <;> simp [stopTrace]

/-- Claim C4: registering a valid handle puts its identifier in the registry
exactly once, registering the same identifier twice leaves exactly one
entry, and the later handle replaces the earlier one. -/
theorem register_list_unique_replacement (mf : Binding → Bool) (s : ServerState)
    (rt rt2 : Runtime) (hwf : (listAgents s).Nodup)
    (h1 : rt.agentId ≠ "") (hc : rt.hasCharacter = true)
    (h2 : rt2.agentId = rt.agentId) (hc2 : rt2.hasCharacter = true) :
    (listAgents (registerAgent mf s (some rt)).state).count rt.agentId = 1 ∧
    (listAgents (registerAgent mf (registerAgent mf s (some rt)).state (some rt2)).state).count
      rt.agentId = 1 ∧
    (registerAgent mf (registerAgent mf s (some rt)).state (some rt2)).state.agents.filter
      (fun p => p.1 == rt.agentId) = [(rt.agentId, rt2)] := by
  have h1b : rt2.agentId ≠ "" := by
    rw [h2]
    exact h1
  have hag1 : (registerAgent mf s (some rt)).state.agents = mapSet s.agents rt.agentId rt := by
    simp [registerAgent, h1, hc]
  have hnd1 : ((registerAgent mf s (some rt)).state.agents.map Prod.fst).Nodup := by
    rw [hag1]
    exact mapSet_nodup s.agents rt.agentId rt hwf
  have hag2 : (registerAgent mf (registerAgent mf s (some rt)).state (some rt2)).state.agents =
      mapSet (registerAgent mf s (some rt)).state.agents rt.agentId rt2 := by
    simp [registerAgent, h1b, hc2, h2, h1, hc]
  refine ⟨?_, ?_, ?_⟩
  · unfold listAgents
    rw [hag1]
    exact mapSet_count_self s.agents rt.agentId rt hwf
  · unfold listAgents
    rw [hag2]
    exact mapSet_count_self _ rt.agentId rt2 hnd1
  · rw [hag2]
    exact mapSet_filter_self _ rt.agentId rt2 hnd1

/-- Concrete handle with identifier `"u"` for the C4 witness. -/
def rtU : Runtime := { agentId := "u", hasCharacter := true, routes := [], plugins := [] }

/-- Second concrete handle with the same identifier `"u"` (different
contents) for the C4 witness. -/
def rtU2 : Runtime :=
  { agentId := "u", hasCharacter := true,
    routes := [{ rtype := "GET", path := "/z", handlerId := 9 }], plugins := [] }

/-- Witness for claim C4 at a concrete double registration of `"u"`. -/
theorem register_list_unique_replacement_witness :
    (listAgents (registerAgent (fun _ => false) emptyState (some rtU)).state).count
      rtU.agentId = 1 ∧
    (listAgents (registerAgent (fun _ => false)
      (registerAgent (fun _ => false) emptyState (some rtU)).state (some rtU2)).state).count
      rtU.agentId = 1 ∧
    (registerAgent (fun _ => false)
      (registerAgent (fun _ => false) emptyState (some rtU)).state (some rtU2)).state.agents.filter
      (fun p => p.1 == rtU.agentId) = [(rtU.agentId, rtU2)] :=
  register_list_unique_replacement (fun _ => false) emptyState rtU rtU2
    (by decide) (by decide) rfl rfl rfl

/-- Claim C5: a descriptor with an unrecognized method classifier is logged
as an unknown route type and skipped, every other descriptor of the same
registration call is still mounted, and the registration as a whole
returns normally. -/
theorem unknown_route_type_skipped_others_mounted (s : ServerState) (rt : Runtime)
    (l1 l2 : List Route) (bad : Route)
    (h1 : rt.agentId ≠ "") (hc : rt.hasCharacter = true)
    (hbad : routeMethod bad.rtype = none)
    (hsplit : rt.routes = l1 ++ bad :: l2) :
    (registerAgent (fun _ => false) s (some rt)).ok = true ∧
    (registerAgent (fun _ => false) s (some rt)).state.bindings =
      s.bindings ++ l1.filterMap (bindRoute rt) ++ l2.filterMap (bindRoute rt) ∧
    bindRoute rt bad = none ∧
    LogEvent.unknownRouteType bad.rtype bad.path ∈
      (registerAgent (fun _ => false) s (some rt)).logs := by
  have hbind : bindRoute rt bad = none := by
    unfold bindRoute
    rw [hbad]
    rfl
  have hreg : registerAgent (fun _ => false) s (some rt) =
      { state :=
          { agents := mapSet s.agents rt.agentId rt,
            bindings := s.bindings ++ rt.routes.filterMap (bindRoute rt),
            mounts := s.mounts },
        logs := rt.routes.map routeLog ++ [LogEvent.agentRegistered rt.agentId],
        ok := true } := by
    simp [registerAgent, h1, hc, mountLoop_noFail]
  refine ⟨by rw [hreg], ?_, hbind, ?_⟩
  · rw [hreg]
    simp only [hsplit, List.filterMap_append, List.filterMap_cons, hbind, List.append_assoc]
  · rw [hreg]
    have hb : bad ∈ rt.routes := by
      rw [hsplit]
      exact List.mem_append_right _ (List.mem_cons_self _ _)
    have hlog : routeLog bad = LogEvent.unknownRouteType bad.rtype bad.path := by
      unfold routeLog
      rw [hbad]
    exact List.mem_append.mpr (Or.inl (hlog ▸ List.mem_map_of_mem routeLog hb))

/-- Recognized route before the unknown one in the C5 witness. -/
def routeG1 : Route := { rtype := "GET", path := "/a", handlerId := 1 }

/-- Route with the unrecognized classifier `"PATCH"` in the C5 witness. -/
def routeBad : Route := { rtype := "PATCH", path := "/b", handlerId := 2 }

/-- Recognized route after the unknown one in the C5 witness. -/
def routeG2 : Route := { rtype := "POST", path := "/c", handlerId := 3 }

/-- Concrete runtime whose middle route has an unrecognized classifier. -/
def rtC5 : Runtime :=
  { agentId := "c", hasCharacter := true, routes := [routeG1, routeBad, routeG2], plugins := [] }

/-- Witness for claim C5 at a concrete three-route registration. -/
theorem unknown_route_type_skipped_others_mounted_witness :
    (registerAgent (fun _ => false) emptyState (some rtC5)).ok = true ∧
    (registerAgent (fun _ => false) emptyState (some rtC5)).state.bindings =
      emptyState.bindings ++ [routeG1].filterMap (bindRoute rtC5) ++
        [routeG2].filterMap (bindRoute rtC5) ∧
    bindRoute rtC5 routeBad = none ∧
    LogEvent.unknownRouteType routeBad.rtype routeBad.path ∈
      (registerAgent (fun _ => false) emptyState (some rtC5)).logs :=
  unknown_route_type_skipped_others_mounted emptyState rtC5 [routeG1] [routeG2] routeBad
    (by decide) rfl rfl rfl

/-- Route used by the C6 counterexample: a qualifying GET route whose
trimmed base path is empty. -/
def wildRoute : Route := { rtype := "GET", path := "/*", handlerId := 0 }

/-- Counterexample to claim C6: the qualifying GET route `"/*"` contributes
no appended candidate — its base path is empty after trimming and the
source's `if (basePath)` guard drops it — so the probed candidate list
differs from the one the claim describes (which would append
`/dist` mounted at `/`). -/
theorem empty_base_route_adds_no_candidate :
    isStaticRoute wildRoute = true ∧
    routeCandidates [wildRoute] = [] ∧
    allCandidates [wildRoute] ≠ commonDirs ++ specRouteCandidates [wildRoute] := by
  refine ⟨rfl, rfl, ?_⟩
  decide

/-- Claim C6, amended: the resolver probes the fixed seven-candidate list
followed by one appended candidate per qualifying GET route whose derived
base path is nonempty (routes whose trimmed base is empty contribute no
candidate); every candidate whose directory exists is registered as a
mount, in candidate order, and no candidate is skipped because an earlier
one matched. -/
theorem asset_candidate_order_and_mounts (ex : String → Bool) (routes : List Route) :
    allCandidates routes = commonDirs ++ routeCandidates routes ∧
    (∀ c ∈ allCandidates routes, ex c.1 = true → c ∈ resolveMounts ex routes) ∧
    (∀ c ∈ resolveMounts ex routes, c ∈ allCandidates routes ∧ ex c.1 = true) ∧
    (resolveMounts ex routes).Sublist (allCandidates routes) := by
  refine ⟨rfl, ?_, ?_, ?_⟩
  · intro c hc hex
    exact List.mem_filter.mpr ⟨hc, hex⟩
  · intro c hc
    exact List.mem_filter.mp hc
  · exact List.filter_sublist _

/-- Witness for the amended claim C6: with every directory existing, the
first fixed candidate is registered as a mount. -/
theorem asset_candidate_order_and_mounts_witness :
    ("dist/assets", "/assets") ∈ resolveMounts (fun _ => true) [] :=
  (asset_candidate_order_and_mounts (fun _ => true) []).2.1 ("dist/assets", "/assets")
    (by decide) rfl

/-- Claim C7: unregistering the empty identifier is a no-op apart from a
warning; unregistering a nonempty identifier removes exactly that
identifier from the registry and leaves every route binding and asset
mount untouched. -/
theorem unregister_removes_only_registry_entry (s : ServerState) (id : UUID) (hid : id ≠ "") :
    unregisterAgent s "" = (s, [LogEvent.warnEmptyUnregister]) ∧
    id ∉ listAgents (unregisterAgent s id).1 ∧
    (∀ p ∈ s.agents, p.1 ≠ id → p ∈ (unregisterAgent s id).1.agents) ∧
    (∀ p ∈ (unregisterAgent s id).1.agents, p ∈ s.agents ∧ p.1 ≠ id) ∧
    (unregisterAgent s id).1.bindings = s.bindings ∧
    (unregisterAgent s id).1.mounts = s.mounts := by
  have hu : unregisterAgent s id =
      ({ s with agents := mapDelete s.agents id }, [LogEvent.agentRemoved id]) := by
    unfold unregisterAgent
    rw [if_neg hid]
  refine ⟨by unfold unregisterAgent; rw [if_pos rfl], ?_, ?_, ?_, ?_, ?_⟩
  · rw [hu]
    intro hmem
    obtain ⟨p, hp, hpk⟩ := List.mem_map.mp hmem
    have hfp := List.of_mem_filter hp
    simp [hpk] at hfp
  · intro p hp hne
    rw [hu]
    exact List.mem_filter.mpr ⟨hp, by simp [hne]⟩
  · intro p hp
    rw [hu] at hp
    have h2 := List.mem_filter.mp hp
    refine ⟨h2.1, ?_⟩
    simpa using h2.2
  · rw [hu]
  · rw [hu]

/-- Second concrete runtime handle for the C7 witness state. -/
def rtB : Runtime := { agentId := "b", hasCharacter := true, routes := [], plugins := [] }

/-- Concrete two-agent state with a route binding and an asset mount, for
the C7 witness. -/
def stateW : ServerState :=
  { agents := [("a", rtA), ("b", rtB)],
    bindings := [{ method := Method.get, path := "/a", handlerId := 1, agentId := "a" }],
    mounts := [("dist", "/")] }

/-- Witness for claim C7: unregistering `"a"` from the concrete state. -/
theorem unregister_removes_only_registry_entry_witness :
    unregisterAgent stateW "" = (stateW, [LogEvent.warnEmptyUnregister]) ∧
    "a" ∉ listAgents (unregisterAgent stateW "a").1 ∧
    (∀ p ∈ stateW.agents, p.1 ≠ "a" → p ∈ (unregisterAgent stateW "a").1.agents) ∧
    (∀ p ∈ (unregisterAgent stateW "a").1.agents, p ∈ stateW.agents ∧ p.1 ≠ "a") ∧
    (unregisterAgent stateW "a").1.bindings = stateW.bindings ∧
    (unregisterAgent stateW "a").1.mounts = stateW.mounts :=
  unregister_removes_only_registry_entry stateW "a" (by decide)

/-- Claim C8: the clean-close completion and the fixed 5-second grace timer
race, and whichever fires first determines the exit status — a close
strictly before the timer exits with status 0, a close after the timer (or
never) yields the forced status-1 exit — independently of any agent's stop
outcome (stops are invoked without awaiting). -/
theorem shutdown_exit_race (stopFails : UUID → Bool) (agents : List (UUID × Runtime))
    (ct : Option Nat) :
    (∀ t, ct = some t → t < graceTimeoutMs →
      (shutdownRun stopFails agents ct).2 = { time := t, status := 0 }) ∧
    (∀ t, ct = some t → graceTimeoutMs < t →
      (shutdownRun stopFails agents ct).2 = { time := graceTimeoutMs, status := 1 }) ∧
    (ct = none → (shutdownRun stopFails agents ct).2 = { time := graceTimeoutMs, status := 1 }) ∧
    (∀ sf2 : UUID → Bool, (shutdownRun sf2 agents ct).2 = (shutdownRun stopFails agents ct).2) := by
  refine ⟨?_, ?_, ?_, ?_⟩
  · rintro t rfl h
    simp [shutdownRun, shutdownExit, raceFirst, h]
  · rintro t rfl h
    simp [shutdownRun, shutdownExit, raceFirst, Nat.lt_asymm h]
  · rintro rfl
    rfl
  · intro sf2
    rfl

/-- Witness for claim C8 at a listener closing 3 ms after the drain. -/
theorem shutdown_exit_race_witness :
    (3 : Nat) < graceTimeoutMs ∧
    (shutdownRun (fun _ => false) [] (some 3)).2 = { time := 3, status := 0 } :=
  ⟨by decide, (shutdown_exit_race (fun _ => false) [] (some 3)).1 3 rfl (by decide)⟩

/-- Claim C9: binding a route descriptor with classifier `STATIC` produces
exactly the same route binding as binding it with classifier `GET` — the
two switch cases install identical GET bindings wrapping the same handler
with the same owning agent. -/
theorem static_and_get_bind_equally (rt : Runtime) (p : String) (h : Nat) :
    bindRoute rt { rtype := "STATIC", path := p, handlerId := h } =
      bindRoute rt { rtype := "GET", path := p, handlerId := h } := rfl

/-- Claim C10: registration is not atomic — the handle is inserted into the
registry before any route is mounted, so when route mounting fails partway
and `registerAgent` throws, the identifier is still in the registry. -/
theorem failed_registration_keeps_agent_registered (mf : Binding → Bool) (s : ServerState)
    (rt : Runtime) (h1 : rt.agentId ≠ "") (hc : rt.hasCharacter = true)
    (hfail : (registerAgent mf s (some rt)).ok = false) :
    rt.agentId ∈ listAgents (registerAgent mf s (some rt)).state ∧
    LogEvent.registerFailed ∈ (registerAgent mf s (some rt)).logs := by
  have hag : (registerAgent mf s (some rt)).state.agents = mapSet s.agents rt.agentId rt := by
    simp [registerAgent, h1, hc]
  constructor
  · unfold listAgents
    rw [hag]
    exact mapSet_mem_keys s.agents rt.agentId rt
  · have hok : (registerAgent mf s (some rt)).ok =
        (mountLoop mf rt rt.routes s.bindings).2.2 := by
      simp [registerAgent, h1, hc]
    have hlogs : (registerAgent mf s (some rt)).logs =
        (mountLoop mf rt rt.routes s.bindings).2.1 ++
          (if (mountLoop mf rt rt.routes s.bindings).2.2 then
            [LogEvent.agentRegistered rt.agentId] else [LogEvent.registerFailed]) := by
      simp [registerAgent, h1, hc]
    rw [hok] at hfail
    rw [hlogs, hfail]
    simp

/-- Concrete runtime whose single route's mounting fails in the C10
witness. -/
def rtF : Runtime :=
  { agentId := "f", hasCharacter := true,
    routes := [{ rtype := "GET", path := "/x", handlerId := 0 }], plugins := [] }

/-- Witness for claim C10: a mounting failure on the only route of `"f"`
leaves `"f"` registered. -/
theorem failed_registration_keeps_agent_registered_witness :
    rtF.agentId ∈ listAgents (registerAgent (fun _ => true) emptyState (some rtF)).state ∧
    LogEvent.registerFailed ∈ (registerAgent (fun _ => true) emptyState (some rtF)).logs :=
  failed_registration_keeps_agent_registered (fun _ => true) emptyState rtF
    (by decide) rfl (by decide)

end Eliza
